import Mathlib

/-!
Verification of the connection lifecycle manager and event router of
`src/index.js` (NexusCoders-Bot). The module-level mutable variables
`retryCount`, `isConnecting` and `initialConnection` become a `BotState`
record; each event listener becomes a pure function from the event payload
and the current state to the next state together with a trace of observable
effects (socket construction, timer scheduling, process exit, log lines,
outbound messages). External library calls that can fail (JSON parsing,
message send, transport construction) are parameterised by oracles so the
theorems quantify over every possible outcome.
-/

namespace NexusBot

/-- MAX_RETRIES constant, line 29 of src/index.js. -/
def MAX_RETRIES : Nat := 5

/-- Baileys DisconnectReason.loggedOut status code, compared against
`lastDisconnect?.error?.output?.statusCode` on line 137. -/
def loggedOutCode : Nat := 401

/-- Module-level mutable state of src/index.js: `retryCount` (line 30),
`isConnecting` (line 27), `initialConnection` (line 26). -/
structure BotState where
  retryCount : Nat
  isConnecting : Bool
  initialConnection : Bool
deriving DecidableEq, Repr

/-- Observable side effects of the connection manager. `makeSocket` is the
`makeWASocket` call (line 119), `subscribeEvents` the block of `sock.ev.on`
registrations (lines 135-189), `scheduleReconnect` a `setTimeout` of
`connectToWhatsApp` (lines 143 and 198), `processExit` a `process.exit`
call (lines 146 and 200), `sendStartup` a `sock.sendMessage` attempt to
one owner jid (line 93). -/
inductive Effect where
  | makeSocket
  | subscribeEvents
  | logInfo
  | logError
  | scheduleReconnect (delayMs : Nat)
  | processExit (code : Nat)
  | sendStartup (jid : String)
deriving DecidableEq, Repr

/-- Close branch of the `connection.update` listener, lines 136-148.
`statusCode` is `lastDisconnect?.error?.output?.statusCode`; `none` models
the optional chain yielding undefined, which in JS is `!== loggedOut` and
hence retryable. -/
def onClose (statusCode : Option Nat) (s : BotState) : BotState × List Effect :=
  let shouldReconnect := statusCode ≠ some loggedOutCode
  let s1 : BotState := { s with isConnecting := false }
  if shouldReconnect ∧ s1.retryCount < MAX_RETRIES then
    ({ s1 with retryCount := s1.retryCount + 1 },
      [Effect.logInfo, Effect.scheduleReconnect 5000])
  else
    (s1, [Effect.logError, Effect.processExit 1])

/-- The `sendStartupMessage` function, lines 65-109: one send attempt to
`jid`; a raised send error is caught and logged (lines 106-108), so the
function returns normally either way. `sendFails` is the oracle saying
whether `sock.sendMessage` raises for a given jid. -/
def sendStartupMessage (sendFails : String → Bool) (jid : String) : List Effect :=
  if sendFails jid then [Effect.sendStartup jid, Effect.logError]
  else [Effect.sendStartup jid]

/-- Open branch of the `connection.update` listener, lines 150-161: reset
`retryCount`, clear `isConnecting`, log, and on the first open of the
process lifetime send the startup message to each configured owner in
order (the `for ... of` loop with `await`, lines 157-159). -/
def onOpen (sendFails : String → Bool) (owners : List String) (s : BotState) :
    BotState × List Effect :=
  let s1 : BotState := { s with retryCount := 0, isConnecting := false }
  if s1.initialConnection then
    ({ s1 with initialConnection := false },
      Effect.logInfo :: owners.flatMap (sendStartupMessage sendFails))
  else
    (s1, [Effect.logInfo])

/-- Result of one `connectToWhatsApp` call: the state on return, the trace
of effects, and whether a socket object (rather than null) was returned. -/
structure ConnectResult where
  state : BotState
  effects : List Effect
  sockReturned : Bool
deriving DecidableEq, Repr

/-- The `connectToWhatsApp` function, lines 111-204. The reentrancy guard
(lines 112-113) returns null at once when `isConnecting` is set. `throws`
models an exception raised while loading auth state, fetching the protocol
version or constructing the transport; the catch block (lines 192-203)
clears `isConnecting`, logs, and either consumes one retry and schedules
another attempt or exits with status 1. On success the socket is built and
the event listeners are registered exactly once. -/
def connectToWhatsApp (throws : Bool) (s : BotState) : ConnectResult :=
  if s.isConnecting then ⟨s, [], false⟩
  else
    let s1 : BotState := { s with isConnecting := true }
    if throws then
      let s2 : BotState := { s1 with isConnecting := false }
      if s2.retryCount < MAX_RETRIES then
        ⟨{ s2 with retryCount := s2.retryCount + 1 },
          [Effect.logError, Effect.scheduleReconnect 5000], false⟩
      else
        ⟨s2, [Effect.logError, Effect.processExit 1], false⟩
    else
      ⟨s1, [Effect.makeSocket, Effect.subscribeEvents], true⟩

/-- RetryPolicy.shouldRetry as the spec words it; the code writes the
comparison `retryCount < MAX_RETRIES` inline on lines 140 and 196. -/
def shouldRetry (attemptCount : Nat) : Bool := attemptCount < MAX_RETRIES

/-- Number of `process.exit` calls in a trace. -/
def countExits (tr : List Effect) : Nat :=
  tr.countP fun e => match e with
    | Effect.processExit _ => true
    | _ => false

/-- Whether a trace contains a `process.exit` call. -/
def hasExit (tr : List Effect) : Bool :=
  tr.any fun e => match e with
    | Effect.processExit _ => true
    | _ => false

/-- Run of `n` consecutive transient close events with no intervening open:
each close is handled by `onClose` (status code 428, a non-loggedOut
reason); if the process did not exit, the scheduled timer fires and
`connectToWhatsApp` runs successfully before the next close arrives. After
a `process.exit` the process is gone, so the run stops. -/
def closeRun : Nat → BotState → BotState × List Effect
  | 0, s => (s, [])
  | n + 1, s =>
    let c := onClose (some 428) s
    if hasExit c.2 then c
    else
      let r := connectToWhatsApp false c.1
      let rest := closeRun n r.state
      (rest.1, c.2 ++ r.effects ++ rest.2)

/-- State right after boot first calls `connectToWhatsApp` and the socket
is up, before any close: fresh connection, retry counter zero. -/
def freshState : BotState := ⟨0, true, true⟩

/-- Observable effects of the event-router listeners. `handleMessage m` is
an invocation of `messageHandler.handleMessage` on message `m` (line 170);
`handleEventMessage m` an invocation of `eventHandler.handleEvent` with
kind "message" (line 171); `handleGroupParticipants` and
`handleEventGroupMemberJoin` the two calls of the
`group-participants.update` listener (lines 180-181), the latter carrying
the group id and `update.participants[0]` (none when the list is empty,
since indexing past the end yields undefined in JS); `logError` the catch
block of the `messages.upsert` listener (line 173); `uncaughtRejection`
an error escaping an async listener that has no local catch. Messages are
identified by a Nat id; their payload is opaque to the router. -/
inductive RouteEffect where
  | handleMessage (m : Nat)
  | handleEventMessage (m : Nat)
  | logError
  | handleGroupParticipants (gid : String)
  | handleEventGroupMemberJoin (gid : String) (participant : Option String)
  | handleGroupUpdate (u : Nat)
  | handleEventGroupUpdate (u : Nat)
  | uncaughtRejection
deriving DecidableEq, Repr

/-- Body of the per-message loop of the `messages.upsert` listener, lines
168-175: one try block wrapping both handler calls; `hm m` (resp. `he m`)
says whether `messageHandler.handleMessage` (resp.
`eventHandler.handleEvent`) raises on message `m`. When the first call
raises, control jumps to the catch before the second call is made. -/
def routeMessage (hm he : Nat → Bool) (m : Nat) : List RouteEffect :=
  if hm m then
    [RouteEffect.handleMessage m, RouteEffect.logError]
  else if he m then
    [RouteEffect.handleMessage m, RouteEffect.handleEventMessage m,
      RouteEffect.logError]
  else
    [RouteEffect.handleMessage m, RouteEffect.handleEventMessage m]

/-- The `messages.upsert` listener, lines 166-177: batches whose upsert
type differs from "notify" are ignored entirely; otherwise each message of
the batch is routed in order, the per-message catch confining a raised
error to its own iteration. -/
def onMessagesUpsert (hm he : Nat → Bool) (ty : String) (messages : List Nat) :
    List RouteEffect :=
  if ty = "notify" then messages.flatMap (routeMessage hm he) else []

/-- Payload of a `group-participants.update` event: the group jid and the
affected participant jids. -/
structure GroupParticipantsUpdate where
  id : String
  participants : List String
deriving DecidableEq, Repr

/-- The `group-participants.update` listener, lines 179-182: no try block;
`gpThrows` says whether `messageHandler.handleGroupParticipantsUpdate`
raises. When it raises, the async listener rejects before reaching
`eventHandler.handleEvent`, and nothing in the listener catches it.
Otherwise `handleEvent` is called once with the group id and only the
first participant of the list. -/
def onGroupParticipantsUpdate (gpThrows : Bool) (u : GroupParticipantsUpdate) :
    List RouteEffect :=
  if gpThrows then
    [RouteEffect.handleGroupParticipants u.id, RouteEffect.uncaughtRejection]
  else
    [RouteEffect.handleGroupParticipants u.id,
      RouteEffect.handleEventGroupMemberJoin u.id u.participants.head?]

/-- On-disk credential directory (`auth_info_baileys`): file names paired
with contents, order irrelevant to the claims proved here. -/
structure SessionDir where
  files : List (String × String)
deriving DecidableEq, Repr

/-- The `processSessionData` function, lines 51-63. `env` is
`process.env.SESSION_DATA`; when absent the function returns false at
once. `parse` models `JSON.parse(Buffer.from(blob, "base64").toString())`
followed by re-serialisation for storage: `none` when JSON.parse raises
(Buffer.from never raises on base64 input, it skips invalid characters),
`some doc` on success. On a raise the catch logs and returns false with
the directory untouched; on success `fs.emptyDir` clears the directory
and `fs.writeJSON` writes the lone creds.json before returning true. -/
def processSessionData (parse : String → Option String) (env : Option String)
    (dir : SessionDir) : Bool × SessionDir :=
  match env with
  | none => (false, dir)
  | some blob =>
    match parse blob with
    | none => (false, dir)
    | some doc => (true, ⟨[("creds.json", doc)]⟩)

/-- Number of startup-message send attempts to `jid` in a trace. -/
def countSends (jid : String) (tr : List Effect) : Nat :=
  tr.count (Effect.sendStartup jid)

/-- C1 counterexample: starting from a fresh connection with retryCount 0,
five consecutive transient closes with no intervening open do NOT reach the
exit path at all: zero `process.exit` calls occur, the retry counter stands
at 5, and the fifth close still schedules a reconnect timer, contradicting
the claim that the fifth close terminates with exactly one exit. -/
theorem c1_counterexample :
    countExits (closeRun 5 freshState).2 = 0 ∧
    (closeRun 5 freshState).1.retryCount = 5 ∧
    (closeRun 5 freshState).2.count (Effect.scheduleReconnect 5000) = 5 := by
  decide

/-- C1 amended: it takes SIX consecutive transient closes with no
intervening open for the manager to terminate; the process-exit path
(status 1) is then invoked exactly once, as the final action of the run,
and never during the first five closes. -/
theorem c1_amended :
    countExits (closeRun 6 freshState).2 = 1 ∧
    (closeRun 6 freshState).2.getLast? = some (Effect.processExit 1) ∧
    countExits (closeRun 5 freshState).2 = 0 := by
  decide

/-- C4: a `connectToWhatsApp` call made while a connect attempt is already
in flight (`isConnecting` set) returns null immediately with the state
unchanged and an empty effect trace: no second transport is constructed
and no second set of event subscriptions is created. -/
theorem c4 (throws : Bool) (s : BotState) (h : s.isConnecting = true) :
    connectToWhatsApp throws s = ⟨s, [], false⟩ := by
  simp [connectToWhatsApp, h]

/-- Witness for c4 at the fresh in-flight state. -/
theorem c4_witness :
    freshState.isConnecting = true ∧
    connectToWhatsApp true freshState = ⟨freshState, [], false⟩ :=
  ⟨rfl, c4 true freshState rfl⟩

/-- C5: a close event carrying the loggedOut status code, whatever the
current retry count, goes straight to the exit path with status 1; no
reconnect timer is scheduled. -/
theorem c5 (s : BotState) :
    onClose (some loggedOutCode) s =
      ({ s with isConnecting := false },
        [Effect.logError, Effect.processExit 1]) ∧
    ∀ d, Effect.scheduleReconnect d ∉ (onClose (some loggedOutCode) s).2 := by
  constructor
  · simp [onClose]
  · intro d
    simp [onClose]

/-- Witness for c5 with plenty of retry budget left (retryCount 0). -/
theorem c5_witness :
    onClose (some loggedOutCode) freshState =
      (⟨0, false, true⟩, [Effect.logError, Effect.processExit 1]) ∧
    Effect.scheduleReconnect 5000 ∉ (onClose (some loggedOutCode) freshState).2 :=
  ⟨(c5 freshState).1, (c5 freshState).2 5000⟩

/-- C8: a missing parse result (malformed blob) makes `processSessionData`
return false with the credential directory untouched; a successful parse
makes it return true with the directory cleared down to the single fresh
creds.json file. -/
theorem c8 (parse : String → Option String) (blob : String) (dir : SessionDir) :
    (parse blob = none →
        processSessionData parse (some blob) dir = (false, dir)) ∧
    (∀ doc, parse blob = some doc →
        processSessionData parse (some blob) dir =
          (true, ⟨[("creds.json", doc)]⟩)) := by
  constructor
  · intro h
    simp [processSessionData, h]
  · intro doc h
    simp [processSessionData, h]

/-- Witness for c8: a concrete parser that fails on "bad" and succeeds on
"good", applied over a directory holding stale credentials. -/
theorem c8_witness :
    (fun b => if b = "good" then some "doc" else none) "bad" =
      (none : Option String) ∧
    processSessionData (fun b => if b = "good" then some "doc" else none)
      (some "bad") ⟨[("creds.json", "old")]⟩ =
      (false, ⟨[("creds.json", "old")]⟩) ∧
    processSessionData (fun b => if b = "good" then some "doc" else none)
      (some "good") ⟨[("creds.json", "old"), ("app-state", "k")]⟩ =
      (true, ⟨[("creds.json", "doc")]⟩) :=
  ⟨rfl,
    (c8 (fun b => if b = "good" then some "doc" else none) "bad"
      ⟨[("creds.json", "old")]⟩).1 rfl,
    (c8 (fun b => if b = "good" then some "doc" else none) "good"
      ⟨[("creds.json", "old"), ("app-state", "k")]⟩).2 "doc" rfl⟩

/-- C9: a message batch whose upsert type is not "notify" is dropped by
the router without invoking any handler. -/
theorem c9 (hm he : Nat → Bool) (ty : String) (ms : List Nat)
    (h : ty ≠ "notify") :
    onMessagesUpsert hm he ty ms = [] := by
  simp [onMessagesUpsert, h]

/-- Witness for c9 on an "append" batch of one message. -/
theorem c9_witness :
    ("append" : String) ≠ "notify" ∧
    onMessagesUpsert (fun _ => false) (fun _ => false) "append" [7] = [] :=
  ⟨by decide, c9 (fun _ => false) (fun _ => false) "append" [7] (by decide)⟩

/-- C10: the `group-participants.update` listener calls the generic event
handler exactly once, with the group id and only the head of the
participants list; for an empty list the call is still made, carrying the
undefined (none) participant; any participant it passes is the head. -/
theorem c10 (u : GroupParticipantsUpdate) :
    onGroupParticipantsUpdate false u =
      [RouteEffect.handleGroupParticipants u.id,
        RouteEffect.handleEventGroupMemberJoin u.id u.participants.head?] ∧
    onGroupParticipantsUpdate false { u with participants := [] } =
      [RouteEffect.handleGroupParticipants u.id,
        RouteEffect.handleEventGroupMemberJoin u.id none] ∧
    ∀ p : String, RouteEffect.handleEventGroupMemberJoin u.id (some p) ∈
        onGroupParticipantsUpdate false u → u.participants.head? = some p := by
  refine ⟨by simp [onGroupParticipantsUpdate], by simp [onGroupParticipantsUpdate], ?_⟩
  intro p hp
  simp [onGroupParticipantsUpdate] at hp
  exact hp.symm

/-- Witness for c10 on a two-participant update and on the empty update. -/
theorem c10_witness :
    onGroupParticipantsUpdate false ⟨"g", ["p1", "p2"]⟩ =
      [RouteEffect.handleGroupParticipants "g",
        RouteEffect.handleEventGroupMemberJoin "g" (some "p1")] ∧
    onGroupParticipantsUpdate false ⟨"g", []⟩ =
      [RouteEffect.handleGroupParticipants "g",
        RouteEffect.handleEventGroupMemberJoin "g" none] :=
  ⟨(c10 ⟨"g", ["p1", "p2"]⟩).1, (c10 ⟨"g", ["p1", "p2"]⟩).2.1⟩

/-- The message handler is invoked for every message of a routed batch,
whatever the two throw oracles decide. -/
theorem handleMessage_mem_routeMessage (hm he : Nat → Bool) (m : Nat) :
    RouteEffect.handleMessage m ∈ routeMessage hm he m := by
  unfold routeMessage
  split_ifs <;> simp

/-- C2 counterexample: a single "notify" message whose message-handler
invocation throws. The trace shows the message handler invoked and the
error logged, but the sibling generic event-handler invocation never
happens for that message, contradicting the claim that it is still
performed. -/
theorem c2_counterexample :
    onMessagesUpsert (fun _ => true) (fun _ => false) "notify" [0] =
      [RouteEffect.handleMessage 0, RouteEffect.logError] ∧
    RouteEffect.handleEventMessage 0 ∉
      onMessagesUpsert (fun _ => true) (fun _ => false) "notify" [0] := by
  decide

/-- C2 amended: when the message-handler invocation for a message throws,
the error is caught and logged and every message of the batch still gets
its own message-handler invocation (routing is not blocked), but the
sibling generic event-handler invocation for the throwing message is
skipped; in the `group-participants.update` listener an error in the first
handler is not caught locally at all and likewise skips the sibling. -/
theorem c2_amended :
    (∀ hm he : Nat → Bool, ∀ ms : List Nat, ∀ m ∈ ms, hm m = true →
        RouteEffect.handleMessage m ∈ onMessagesUpsert hm he "notify" ms ∧
        RouteEffect.handleEventMessage m ∉ onMessagesUpsert hm he "notify" ms ∧
        RouteEffect.logError ∈ onMessagesUpsert hm he "notify" ms) ∧
    (∀ hm he : Nat → Bool, ∀ ms : List Nat, ∀ m ∈ ms,
        RouteEffect.handleMessage m ∈ onMessagesUpsert hm he "notify" ms) ∧
    (∀ u, onGroupParticipantsUpdate true u =
        [RouteEffect.handleGroupParticipants u.id,
          RouteEffect.uncaughtRejection]) := by
  refine ⟨?_, ?_, ?_⟩
  · intro hm he ms m hmem hthrows
    refine ⟨?_, ?_, ?_⟩
    · simp only [onMessagesUpsert, if_pos rfl]
      exact List.mem_flatMap.mpr ⟨m, hmem, handleMessage_mem_routeMessage hm he m⟩
    · simp only [onMessagesUpsert, if_pos rfl]
      intro hcontra
      obtain ⟨m2, _, hmem2⟩ := List.mem_flatMap.mp hcontra
      by_cases h1 : hm m2
      · simp [routeMessage, h1] at hmem2
      · by_cases h2 : he m2
        · simp [routeMessage, h1, h2] at hmem2
          exact h1 (hmem2 ▸ hthrows)
        · simp [routeMessage, h1, h2] at hmem2
          exact h1 (hmem2 ▸ hthrows)
    · simp only [onMessagesUpsert, if_pos rfl]
      exact List.mem_flatMap.mpr ⟨m, hmem, by simp [routeMessage, hthrows]⟩
  · intro hm he ms m hmem
    simp only [onMessagesUpsert, if_pos rfl]
    exact List.mem_flatMap.mpr ⟨m, hmem, handleMessage_mem_routeMessage hm he m⟩
  · intro u
    simp [onGroupParticipantsUpdate]

/-- Witness for c2_amended on the batch [0, 1] where every message-handler
invocation throws: message 0 is handled and logged without its sibling
event-handler call, and message 1 is still routed. -/
theorem c2_amended_witness :
    (0 ∈ ([0, 1] : List Nat)) ∧ ((fun _ => true) 0 = true) ∧
    RouteEffect.handleMessage 0 ∈
      onMessagesUpsert (fun _ => true) (fun _ => false) "notify" [0, 1] ∧
    RouteEffect.handleEventMessage 0 ∉
      onMessagesUpsert (fun _ => true) (fun _ => false) "notify" [0, 1] ∧
    RouteEffect.logError ∈
      onMessagesUpsert (fun _ => true) (fun _ => false) "notify" [0, 1] ∧
    RouteEffect.handleMessage 1 ∈
      onMessagesUpsert (fun _ => true) (fun _ => false) "notify" [0, 1] :=
  ⟨by decide, rfl,
    (c2_amended.1 (fun _ => true) (fun _ => false) [0, 1] 0 (by decide) rfl).1,
    (c2_amended.1 (fun _ => true) (fun _ => false) [0, 1] 0 (by decide) rfl).2.1,
    (c2_amended.1 (fun _ => true) (fun _ => false) [0, 1] 0 (by decide) rfl).2.2,
    c2_amended.2.1 (fun _ => true) (fun _ => false) [0, 1] 1 (by decide)⟩

/-- C3: shouldRetry holds exactly below five attempts, and both failure
paths follow it: a transient close (and a raised connect attempt) with
budget left schedules one retry, while an exhausted budget reaches the
process-exit path with status 1 instead of scheduling anything. -/
theorem c3 :
    (∀ n, shouldRetry n = true ↔ n < 5) ∧
    (∀ n, 5 ≤ n → shouldRetry n = false) ∧
    (∀ sc s, sc ≠ some loggedOutCode → shouldRetry s.retryCount = true →
        (onClose sc s).2 = [Effect.logInfo, Effect.scheduleReconnect 5000] ∧
        (onClose sc s).1.retryCount = s.retryCount + 1) ∧
    (∀ sc s, shouldRetry s.retryCount = false →
        (onClose sc s).2 = [Effect.logError, Effect.processExit 1]) ∧
    (∀ s, s.isConnecting = false → shouldRetry s.retryCount = true →
        (connectToWhatsApp true s).effects =
          [Effect.logError, Effect.scheduleReconnect 5000]) ∧
    (∀ s, s.isConnecting = false → shouldRetry s.retryCount = false →
        (connectToWhatsApp true s).effects =
          [Effect.logError, Effect.processExit 1]) := by
  refine ⟨?_, ?_, ?_, ?_, ?_, ?_⟩
  · intro n
    simp [shouldRetry, MAX_RETRIES]
  · intro n hn
    simp [shouldRetry, MAX_RETRIES]
    omega
  · intro sc s hsc hret
    simp only [shouldRetry, MAX_RETRIES, decide_eq_true_eq] at hret
    constructor <;> simp [onClose, hsc, hret, MAX_RETRIES]
  · intro sc s hret
    simp only [shouldRetry, MAX_RETRIES, decide_eq_true_eq,
      decide_eq_false_iff_not, not_lt] at hret
    have hno : ¬(sc ≠ some loggedOutCode ∧ s.retryCount < MAX_RETRIES) := by
      rintro ⟨-, hlt⟩
      simp only [MAX_RETRIES] at hlt
      omega
    simp [onClose, hno]
  · intro s hconn hret
    simp only [shouldRetry, MAX_RETRIES, decide_eq_true_eq] at hret
    simp [connectToWhatsApp, hconn, hret, MAX_RETRIES]
  · intro s hconn hret
    simp only [shouldRetry, MAX_RETRIES, decide_eq_true_eq,
      decide_eq_false_iff_not, not_lt] at hret
    have hno : ¬(s.retryCount < MAX_RETRIES) := by
      simp only [MAX_RETRIES]
      omega
    simp [connectToWhatsApp, hconn, hno]

/-- Witness for c3 at attempt counts 4 and 5 on both failure paths. -/
theorem c3_witness :
    (shouldRetry 4 = true ↔ 4 < 5) ∧
    shouldRetry 5 = false ∧
    (onClose (some 428) ⟨4, true, true⟩).2 =
      [Effect.logInfo, Effect.scheduleReconnect 5000] ∧
    (onClose (some 428) ⟨5, true, true⟩).2 =
      [Effect.logError, Effect.processExit 1] ∧
    (connectToWhatsApp true ⟨4, false, true⟩).effects =
      [Effect.logError, Effect.scheduleReconnect 5000] ∧
    (connectToWhatsApp true ⟨5, false, true⟩).effects =
      [Effect.logError, Effect.processExit 1] :=
  ⟨c3.1 4, c3.2.1 5 (by decide),
    (c3.2.2.1 (some 428) ⟨4, true, true⟩ (by decide) rfl).1,
    c3.2.2.2.1 (some 428) ⟨5, true, true⟩ rfl,
    c3.2.2.2.2.1 ⟨4, false, true⟩ rfl rfl,
    c3.2.2.2.2.2 ⟨5, false, true⟩ rfl rfl⟩

/-- C6: every open event resets the retry counter to 0 and clears the
reentrancy flag; concretely, after one transient disconnect of the fresh
connection the counter reads 1 while the reconnect is in flight, and 0
again once the open event lands. -/
theorem c6 :
    (∀ sf owners s, (onOpen sf owners s).1.retryCount = 0 ∧
        (onOpen sf owners s).1.isConnecting = false) ∧
    ((onClose (some 428) freshState).1.retryCount = 1 ∧
      (connectToWhatsApp false (onClose (some 428) freshState).1).state.retryCount
        = 1 ∧
      (connectToWhatsApp false
          (onClose (some 428) freshState).1).state.isConnecting = true ∧
      (onOpen (fun _ => false) []
          (connectToWhatsApp false
            (onClose (some 428) freshState).1).state).1.retryCount = 0) := by
  constructor
  · intro sf owners s
    cases h : s.initialConnection <;> simp [onOpen, h]
  · refine ⟨by decide, by decide, by decide, ?_⟩
    rfl

/-- Witness for c6 on the fresh state with one owner configured. -/
theorem c6_witness :
    (onOpen (fun _ => false) ["owner"] freshState).1.retryCount = 0 ∧
    (onOpen (fun _ => false) ["owner"] freshState).1.isConnecting = false :=
  c6.1 (fun _ => false) ["owner"] freshState

/-- Each owner in a flatMapped startup run is attempted exactly as often
as it occurs in the owner list, whatever sends fail. -/
theorem countSends_flatMap (sf : String → Bool) (owners : List String)
    (jid : String) :
    countSends jid (owners.flatMap (sendStartupMessage sf)) =
      owners.count jid := by
  induction owners with
  | nil => simp [countSends]
  | cons o rest ih =>
    rw [List.flatMap_cons]
    by_cases h : sf o <;>
      simp [countSends, sendStartupMessage, h, List.count_append,
        List.count_cons, List.count_singleton] at ih ⊢ <;>
      rw [ih]

/-- C7: on the first open of the process lifetime the startup message is
attempted exactly once per configured owner identity, sequentially in
list order (the trace is the in-order concatenation of the per-owner send
attempts, whatever sends fail, so one failing owner never blocks the
rest); the first-open flag is cleared, and any later open — in particular
any open reached from the state the first open leaves behind — attempts
zero startup sends. -/
theorem c7 (sf : String → Bool) (owners : List String) (s : BotState) :
    (s.initialConnection = true →
        (onOpen sf owners s).2 =
          Effect.logInfo :: owners.flatMap (sendStartupMessage sf) ∧
        (∀ jid, countSends jid (onOpen sf owners s).2 = owners.count jid) ∧
        (onOpen sf owners s).1.initialConnection = false) ∧
    (s.initialConnection = false →
        ∀ jid, countSends jid (onOpen sf owners s).2 = 0) ∧
    (∀ sf2 owners2 jid,
        countSends jid (onOpen sf2 owners2 (onOpen sf owners s).1).2 = 0) := by
  have hcleared : (onOpen sf owners s).1.initialConnection = false := by
    cases h : s.initialConnection <;> simp [onOpen, h]
  refine ⟨?_, ?_, ?_⟩
  · intro h
    refine ⟨by simp [onOpen, h], ?_, hcleared⟩
    intro jid
    have hflat := countSends_flatMap sf owners jid
    simp only [countSends] at hflat
    simp [onOpen, h, countSends, List.count_cons, hflat]
  · intro h jid
    simp [onOpen, h, countSends]
  · intro sf2 owners2 jid
    rcases ht : onOpen sf owners s with ⟨s1, tr⟩
    have h1 : s1.initialConnection = false := by
      rw [ht] at hcleared
      exact hcleared
    simp [onOpen, h1, countSends]

/-- Witness for c7: two owners, every send failing, starting from the
fresh first-connection state; the second owner is still attempted exactly
once on the first open, and zero times on the open after it. -/
theorem c7_witness :
    freshState.initialConnection = true ∧
    (onOpen (fun _ => true) ["a", "b"] freshState).2 =
      Effect.logInfo ::
        (["a", "b"].flatMap (sendStartupMessage (fun _ => true))) ∧
    countSends "b" (onOpen (fun _ => true) ["a", "b"] freshState).2 =
      (["a", "b"] : List String).count "b" ∧
    countSends "b" (onOpen (fun _ => true) ["a", "b"]
        (onOpen (fun _ => true) ["a", "b"] freshState).1).2 = 0 :=
  ⟨rfl,
    ((c7 (fun _ => true) ["a", "b"] freshState).1 rfl).1,
    ((c7 (fun _ => true) ["a", "b"] freshState).1 rfl).2.1 "b",
    (c7 (fun _ => true) ["a", "b"] freshState).2.2 (fun _ => true) ["a", "b"] "b"⟩

end NexusBot
